import Mathlib

/-!
Verification of the REAL-Video-Enhancer streaming render pipeline
(`backend/src`) against its natural-language specification.

The development shallowly embeds the Python sources:

* `utils/Frame.py` (the multi-representation frame buffer),
* `utils/SceneDetect.py` (the scene-cut gate strategies),
* `FFmpegBuffers.py` (the decode-side reader loop),
* `RenderVideo.py` (the transform/render loop),
* `FFmpeg.py` (the telemetry tick: ETA/FPS computation).

Machine integers do not occur (Python ints are unbounded); byte values are
`Nat` constrained to `< 256` where it matters, and the float arithmetic of
the telemetry math is embedded over `ℚ` (exact arithmetic; IEEE rounding of
Python floats is outside the model).  External collaborators (torch model
inference, cv2 colour conversion, ffmpeg processes) enter as opaque function
parameters, exactly at the call sites where the Python code crosses into
them.
-/

namespace RVE

/-! ## Frame buffer (`backend/src/utils/Frame.py`)

A `Frame` caches up to three representations of one video frame: raw bytes
(`self._bytes`), a numpy host array (`self._np`) and a torch tensor
(`self._tensor`).  The tensor payload and the tensor-side converters of the
global `_torch_utils` are opaque here and appear as a type parameter `τ`
plus conversion-function parameters. -/

/-- A numpy array as materialized by `Frame._bytes_to_np`: the element dtype
(uint16 when `hdr_mode` else uint8) together with the flattened row-major
`(H, W, 3)` element list.  `np.tobytes` only reads the flat data, so the
shape is not stored separately. -/
structure NpArray where
  isU16 : Bool
  data : List Nat
deriving DecidableEq, Repr

/-- Group a little-endian byte list into 16-bit words, two bytes at a time:
`lo :: hi :: _` becomes `lo + 256 * hi`.  Embeds the element decoding done
by `np.frombuffer(data, dtype=np.uint16)` on a little-endian host.  A
trailing odd byte cannot occur at call sites (`frombuffer` raises first);
the `[_]` branch is unreachable there. -/
def bytesToWords16 : List Nat → List Nat
  | lo :: hi :: rest => (lo + 256 * hi) :: bytesToWords16 rest
  | _ => []

/-- Serialize a numpy array back to raw bytes (`Frame._np_to_bytes`, i.e.
`arr.tobytes()`): uint8 data is the byte list itself, uint16 data emits two
little-endian bytes per element. -/
def npToBytes (a : NpArray) : List Nat :=
  if a.isU16 then a.data.flatMap (fun w => [w % 256, w / 256 % 256]) else a.data

/-- `Frame._bytes_to_np`: reinterpret the cached raw bytes as a numpy array
of shape `(height, width, 3)` with dtype uint16 (hdr) or uint8 (sdr).
`np.frombuffer` raises when an hdr buffer has odd length, and `reshape`
raises when the element count is not `height * width * 3`; both failure
modes are explicit errors here. -/
def bytesToNp (hdr : Bool) (height width : Nat) (b : List Nat) :
    Except String NpArray :=
  if hdr then
    if b.length % 2 ≠ 0 then
      .error "frombuffer: buffer size must be a multiple of element size"
    else if b.length / 2 ≠ height * width * 3 then
      .error "cannot reshape array"
    else
      .ok ⟨true, bytesToWords16 b⟩
  else
    if b.length ≠ height * width * 3 then .error "cannot reshape array"
    else .ok ⟨false, b⟩

/-- The mutable cache slots of a `Frame` object, with its geometry metadata.
`τ` is the opaque torch-tensor payload.  Invariant-free by construction: any
combination of populated slots is representable, exactly as in Python. -/
structure PFrame (τ : Type) where
  width : Nat
  height : Nat
  hdrMode : Bool
  bytesRep : Option (List Nat)
  npRep : Option NpArray
  tensorRep : Option τ
deriving Repr

/-- A dynamically-typed Python value arriving at `Frame.set_frame_bytes`.
`pyBytes` carries the byte list; `pyOther` stands for any object that is not
an instance of `bytes` (the embedded setter only inspects the `isinstance`
tag, as the source does). -/
inductive PyVal (τ : Type) where
  | pyBytes (b : List Nat)
  | pyOther (descr : String)

/-- Which representation a `Frame._invalidate_cache(keep=...)` call keeps. -/
inductive Keep where
  | tensor
  | np
  | bytes
deriving DecidableEq

/-- `Frame._invalidate_cache`: clear every cached representation except the
one being set. -/
def invalidateCache {τ : Type} (s : PFrame τ) (keep : Keep) : PFrame τ :=
  { s with
    tensorRep := if keep ≠ Keep.tensor then none else s.tensorRep
    npRep := if keep ≠ Keep.np then none else s.npRep
    bytesRep := if keep ≠ Keep.bytes then none else s.bytesRep }

/-- `Frame.set_frame_bytes`: raise `TypeError` unless the argument is a
`bytes` instance, then invalidate the other caches and store the buffer.
No length validation is performed by the source. -/
def set_frame_bytes {τ : Type} (s : PFrame τ) (v : PyVal τ) :
    Except String (PFrame τ) :=
  match v with
  | .pyBytes b => .ok { invalidateCache s Keep.bytes with bytesRep := some b }
  | .pyOther d => .error ("Expected bytes, got " ++ d)

/-- `Frame.set_frame_np`: invalidate the other caches and store the array
(the source's `isinstance(frame, np.ndarray)` guard is discharged by the
argument type here). -/
def set_frame_np {τ : Type} (s : PFrame τ) (a : NpArray) : PFrame τ :=
  { invalidateCache s Keep.np with npRep := some a }

/-- `Frame.set_frame_tensor`: invalidate the other caches and store (a clone
of) the tensor; cloning is the identity on pure values. -/
def set_frame_tensor {τ : Type} (s : PFrame τ) (t : τ) : PFrame τ :=
  { invalidateCache s Keep.tensor with tensorRep := some t }

/-- `Frame.get_frame_bytes` (with the default `clear_cache=False`): if no
bytes are cached, derive them from the tensor (via the opaque
`_torch_utils.tensor_to_frame`, parameter `tensorToFrame`) or else from the
numpy array, caching the result; returns Python `None` (here `none`) when no
representation is populated at all. -/
def get_frame_bytes {τ : Type} (tensorToFrame : τ → List Nat) (s : PFrame τ) :
    Option (List Nat) × PFrame τ :=
  match s.bytesRep with
  | some b => (some b, s)
  | none =>
    match s.tensorRep with
    | some t =>
      let b := tensorToFrame t
      (some b, { s with bytesRep := some b })
    | none =>
      match s.npRep with
      | some a =>
        let b := npToBytes a
        (some b, { s with bytesRep := some b })
      | none => (none, s)

/-- `Frame.get_frame_np` (with the default `clear_cache=False`): if no array
is cached, derive it from the tensor (opaque `_torch_utils.tensor_to_np`,
parameter `tensorToNp`) or else decode the cached bytes, which can raise;
caches the result. -/
def get_frame_np {τ : Type} (tensorToNp : τ → NpArray) (s : PFrame τ) :
    Except String (Option NpArray × PFrame τ) :=
  match s.npRep with
  | some a => .ok (some a, s)
  | none =>
    match s.tensorRep with
    | some t =>
      let a := tensorToNp t
      .ok (some a, { s with npRep := some a })
    | none =>
      match s.bytesRep with
      | some b => do
        let a ← bytesToNp s.hdrMode s.height s.width b
        .ok (some a, { s with npRep := some a })
      | none => .ok (none, s)

/-- Number of bytes per pixel for a frame: 3 interleaved channels at one
byte each in sdr mode, two bytes each in hdr mode (`rgb24` vs `rgb48le`). -/
def bytesPerPixel (hdr : Bool) : Nat := if hdr then 6 else 3

/-- Exactly one of the three cache slots is populated. -/
def ExactlyOnePopulated {τ : Type} (s : PFrame τ) : Prop :=
  (s.bytesRep.isSome ∧ s.npRep = none ∧ s.tensorRep = none)
    ∨ (s.bytesRep = none ∧ s.npRep.isSome ∧ s.tensorRep = none)
    ∨ (s.bytesRep = none ∧ s.npRep = none ∧ s.tensorRep.isSome)

/-! ## Scene-cut gate (`backend/src/utils/SceneDetect.py`)

`SceneDetect.detect` delegates to one strategy object's `sceneDetect`
method.  The strategies retain at most one previous-frame fingerprint.  A
Python `sceneDetect` call returns `True`, `False` or — via a bare
`return` on the very first frame — `None`; the result type is therefore
`Option Bool`, with `none` standing for Python `None`. -/

/-- The pixel content of a frame as seen by the detectors after
`get_frame_np()`: geometry plus the flattened row-major `(H, W, 3)` value
list.  Pixel values live in `ℚ` (numpy promotes to float for the means). -/
structure NpImg where
  h : Nat
  w : Nat
  data : List ℚ
deriving DecidableEq, Repr

/-- `np.mean` over a whole array: sum divided by element count (`0` for the
empty array, where numpy would produce NaN; no detector reaches that case
with a nonempty frame). -/
def npMean (l : List ℚ) : ℚ := l.sum / l.length

/-- One row/column-clamped element read from a flattened `(H, W, 3)`
array. -/
def npAt (img : NpImg) (i j c : Nat) : ℚ := img.data.getD ((i * img.w + j) * 3 + c) 0

/-- `np.mean` of the slice `img[r0:r1, c0:c1]` (channels included), with
numpy's slice clamping to the array bounds. -/
def sliceMean (img : NpImg) (r0 r1 c0 c1 : Nat) : ℚ :=
  let rows := (List.range (min r1 img.h)).filter (fun i => r0 ≤ i)
  let cols := (List.range (min c1 img.w)).filter (fun j => c0 ≤ j)
  let vals := rows.flatMap (fun i => cols.flatMap (fun j => [npAt img i j 0, npAt img i j 1, npAt img i j 2]))
  npMean vals

/-- `NPMeanSegmentedSCDetect.segmentImage`, observed at key `i`: the source
iterates `j` over all columns but assigns every mean to `means[i]`, so the
retained value for row `i` is the mean of the final column segment
`j = segments - 1`. -/
def segmentImageAt (segs : Nat) (img : NpImg) (i : Nat) : ℚ :=
  let sh := img.h / segs
  let sw := img.w / segs
  sliceMean img (i * sh) ((i + 1) * sh) ((segs - 1) * sw) (segs * sw)

/-- The key loop of `NPMeanSegmentedSCDetect.sceneDetect`: walk the stored
means in key order, count detections, and return `True` as soon as
`maxDetections` is reached; `False` when the keys are exhausted.  `rem` is
the number of keys still to visit, `k` the current key, `det` the running
detection count. -/
def segDetectLoop (m1 m2 : Nat → ℚ) (sens : ℚ) (maxDet : Nat) :
    Nat → Nat → Nat → Bool
  | 0, _, _ => false
  | rem + 1, k, det =>
    if m1 k > m2 k + sens ∨ m1 k < m2 k - sens then
      if det + 1 ≥ maxDet then true
      else segDetectLoop m1 m2 sens maxDet rem (k + 1) (det + 1)
    else segDetectLoop m1 m2 sens maxDet rem (k + 1) det

/-- The state of one scene-cut strategy object.  `base` is `BaseDetector`
(method "none"), `mean` is `NPMeanSCDetect` (retains `image0mean`; the also
stored array `i0` is never read on later calls and is elided),
`meanSegmented` is `NPMeanSegmentedSCDetect` (retains the per-key means
dict as a function) and `meanDiff` is `NPMeanDiffSCDetect` (retains the
grayscale of the previous frame).  In every strategy the `sensitivity`
field already includes the `threshold * 10` scaling of `__init__`. -/
inductive Gate where
  | base : Gate
  | mean (sens : ℚ) (m0 : Option ℚ) : Gate
  | meanSegmented (sens : ℚ) (segs maxDet : Nat) (m0 : Option (Nat → ℚ)) : Gate
  | meanDiff (sens : ℚ) (g0 : Option (List ℚ)) : Gate

/-- A gate that has not yet retained a previous-frame fingerprint
(`BaseDetector` keeps none by design). -/
def Gate.Fresh : Gate → Prop
  | .base => True
  | .mean _ m0 => m0 = none
  | .meanSegmented _ _ _ m0 => m0 = none
  | .meanDiff _ g0 => g0 = none

/-- A gate that has retained its previous-frame fingerprint
(`BaseDetector` needs none). -/
def Gate.Warmed : Gate → Prop
  | .base => True
  | .mean _ m0 => m0.isSome
  | .meanSegmented _ _ _ m0 => m0.isSome
  | .meanDiff _ g0 => g0.isSome

/-- `SceneDetect.detect`, dispatching to the active strategy's
`sceneDetect`.  `gray` is the opaque `cv2.cvtColor(..., COLOR_BGR2GRAY)`
used by `NPMeanDiffSCDetect`.  Returns the Python result (`none` models the
bare `return` of the warm-up paths) together with the updated strategy
state. -/
def gateStep (gray : NpImg → List ℚ) : Gate → NpImg → Option Bool × Gate
  | .base, _ => (some false, .base)
  | .mean sens m0, img =>
    match m0 with
    | none => (none, .mean sens (some (npMean img.data)))
    | some m =>
      let m1 := npMean img.data
      (some (decide (m > m1 + sens ∨ m < m1 - sens)), .mean sens (some m1))
  | .meanSegmented sens segs maxDet m0, img =>
    match m0 with
    | none => (none, .meanSegmented sens segs maxDet (some (segmentImageAt segs img)))
    | some m1 =>
      let m2 := segmentImageAt segs img
      (some (segDetectLoop m1 m2 sens maxDet segs 0 0),
        .meanSegmented sens segs maxDet (some m2))
  | .meanDiff sens g0, img =>
    match g0 with
    | none => (none, .meanDiff sens (some (gray img)))
    | some g =>
      let g1 := gray img
      let d := npMean (List.zipWith (fun a b => |a - b|) g1 g)
      (some (decide (d > sens)), .meanDiff sens (some g1))

/-- Python truthiness of the `detect` result as consumed by
`RenderVideo.render` (`transition=sceneDetect`) and the interpolators
(`if not transition:`): `None` and `False` are falsy. -/
def pyTruthy (r : Option Bool) : Bool := r.getD false

/-! ## Decode-side reader (`backend/src/FFmpegBuffers.py`, `FFmpegRead`)

`read_frames_into_queue` repeatedly reads `inputFrameChunkSize` bytes from
the decoder's stdout, wraps full chunks and pushes them, and pushes a
single `None` sentinel on the first short read.  The decoder's whole output
is modelled as one byte list.  `postProc` is the optional yuv420p→RGB
conversion applied by `read_frame` (the identity when `yuv420pMOD` is
off). -/

/-- The queue trace produced by `FFmpegRead.read_frames_into_queue` on a
byte stream: `some chunk` per full read, then exactly one `none`.  The
source loops forever when `inputFrameChunkSize = 0`; that size is never
constructed (it is `width * height * k` with `k ∈ {3/2·, 3, 6}` on a real
geometry), and the model treats it as an immediate short read. -/
def readFramesIntoQueue (chunkSize : Nat) (postProc : List Nat → List Nat)
    (stream : List Nat) : List (Option (List Nat)) :=
  if _h : stream.length < chunkSize ∨ chunkSize = 0 then [none]
  else
    some (postProc (stream.take chunkSize))
      :: readFramesIntoQueue chunkSize postProc (stream.drop chunkSize)
termination_by stream.length
decreasing_by
  simp only [List.length_drop]
  omega

/-! ## The render loop (`backend/src/RenderVideo.py`, `Render.render`)

Frames are abstracted at a type `α`; the neural transforms and byte-level
helpers the loop calls out to are opaque function fields of
`RenderConfig`.  The pushed items are the raw byte buffers
(`get_frame_bytes` results, or `resize_image_bytes` results), abstracted as
`List Nat`. -/

/-- The configuration of one `Render` run, restricted to what the `render`
loop reads.  `interpFn f0 f1 n` is the in-between frame the configured
interpolation transform yields for timestep `(n + 1) / ceilInterpolateFactor`
between consecutive source frames `f0` and `f1` (padding, tensor transport
and the flownet inference of `InterpolateRifeTorch.__call__` folded in);
`getBytes` is `Frame.get_frame_bytes`; `resizeBytes` is
`resize_image_bytes` at the configured override geometry. -/
structure RenderConfig (α : Type) where
  interpolateModel : Bool
  upscaleModel : Bool
  overrideUpscaleScale : Bool
  ceilInterpolateFactor : Nat
  restorations : List (α → α)
  upscaleFn : α → α
  interpFn : α → α → Nat → α
  getBytes : α → List Nat
  resizeBytes : List Nat → List Nat

/-- Python truthiness of the generator object returned by calling an
interpolation transform (`interpolated_frames` in `Render.render`): a
generator object defines neither a custom bool conversion nor a length, so
`bool()` of it is `True` regardless of how many frames it will yield.  The
list argument records those frames purely so the definition sits at the
exact call site of the source's `if not interpolated_frames:` guard. -/
def pyGeneratorTruthy {α : Type} (_frames : List α) : Bool := true

/-- One call of the interpolation transform
(`InterpolateRifeTorch.__call__`, and structurally every other backend):
with no retained `frame0` the incoming frame is stored and nothing is
yielded (warm-up); otherwise `ceilInterpolateFactor - 1` frames are yielded
in timestep order — duplicates of the incoming frame on a transition, else
genuine in-between frames — and `frame0` is replaced by the incoming
frame. -/
def interpolateCall {α : Type} (cfg : RenderConfig α) (st : Option α) (img1 : α)
    (transition : Bool) : List α × Option α :=
  match st with
  | none => ([], some img1)
  | some f0 =>
    ((List.range (cfg.ceilInterpolateFactor - 1)).map
        (fun n => if transition then img1 else cfg.interpFn f0 img1 n),
      some img1)

/-- The extra-restoration chain at the top of the loop body:
`for extraRestoration in self.extraRestorationModels: frame = extraRestoration(frame)`. -/
def applyRestorations {α : Type} (cfg : RenderConfig α) (f : α) : α :=
  cfg.restorations.foldl (fun acc r => r acc) f

/-- The raw buffer pushed downstream for one frame: optional upscale, then
optional override-resize of the raw bytes, then `get_frame_bytes` (already
taken when resizing).  Mirrors the identical interpolated-frame and main-
frame push paths of `Render.render`. -/
def outputBytes {α : Type} (cfg : RenderConfig α) (f : α) : List Nat :=
  let f1 := if cfg.upscaleModel then cfg.upscaleFn f else f
  if cfg.overrideUpscaleScale then cfg.resizeBytes (cfg.getBytes f1)
  else cfg.getBytes f1

/-- The body of `Render.render` for one non-sentinel frame pulled from the
read queue: restoration chain, then (when interpolation is configured) the
gate query, the transform call, the dead `if not interpolated_frames:
return` guard, the interpolated-frame pushes, and finally the frame's own
push.  Returns the pushed buffers in order, the new gate and transform
states, and whether the guard's early `return` fired (which would abandon
the whole `render` method). -/
def renderFrame {α γ : Type} (cfg : RenderConfig α)
    (detect : γ → α → Option Bool × γ) (g : γ) (ist : Option α) (f : α) :
    List (List Nat) × γ × Option α × Bool :=
  let f := applyRestorations cfg f
  if cfg.interpolateModel then
    let (sd, g1) := detect g f
    let (iframes, ist1) := interpolateCall cfg ist f (pyTruthy sd)
    if pyGeneratorTruthy iframes = false then ([], g1, ist1, true)
    else (iframes.map (outputBytes cfg) ++ [outputBytes cfg f], g1, ist1, false)
  else ([outputBytes cfg f], g, ist, false)

/-- `Render.render` under a schedule on which `get_is_paused()` always
reads false: pull frames until the `None` sentinel, push each frame's
buffers, then push exactly one `None` to the write queue — unless the dead
early-return guard were ever to fire, which would end the trace without a
sentinel. -/
def renderLoopNoPause {α γ : Type} (cfg : RenderConfig α)
    (detect : γ → α → Option Bool × γ) (g : γ) (ist : Option α) :
    List α → List (Option (List Nat))
  | [] => [none]
  | f :: rest =>
    let (pushes, g1, ist1, aborted) := renderFrame cfg detect g ist f
    if aborted then pushes.map some
    else pushes.map some ++ renderLoopNoPause cfg detect g1 ist1 rest

/-- `Render.render` with an explicit trace of the pause-flag values read at
the top of each `while True` iteration (one `get_is_paused()` read per
iteration; readings beyond the recorded trace are false).  A paused
iteration performs no queue pull and no push and just sleeps; an unpaused
iteration runs the loop body. -/
def renderLoop {α γ : Type} (cfg : RenderConfig α)
    (detect : γ → α → Option Bool × γ) (pauses : List Bool) (g : γ)
    (ist : Option α) (input : List α) : List (Option (List Nat)) :=
  match pauses with
  | [] => renderLoopNoPause cfg detect g ist input
  | p :: ps =>
    if p then renderLoop cfg detect ps g ist input
    else
      match input with
      | [] => [none]
      | f :: rest =>
        let (pushes, g1, ist1, aborted) := renderFrame cfg detect g ist f
        if aborted then pushes.map some
        else pushes.map some ++ renderLoop cfg detect ps g1 ist1 rest

/-- The scene-cut gate of a run configured with
`sceneDetectMethod="none"`: `BaseDetector.sceneDetect` returns `False` on
every call and keeps no state. -/
def noCutDetect {α : Type} : Unit → α → Option Bool × Unit :=
  fun _ _ => (some false, ())

/-- The buffer sequence the specification prescribes for a warmed-up run:
for each source frame, the `ceilInterpolateFactor - 1` in-between buffers
toward it (in timestep order), then its own possibly-upscaled buffer.
`f0` is the previous (already restored) source frame retained by the
transform. -/
def expectedRun {α : Type} (cfg : RenderConfig α) (f0 : α) :
    List α → List (List Nat)
  | [] => []
  | f :: rest =>
    let fr := applyRestorations cfg f
    ((List.range (cfg.ceilInterpolateFactor - 1)).map
        (fun n => outputBytes cfg (cfg.interpFn f0 fr n)))
      ++ [outputBytes cfg fr] ++ expectedRun cfg fr rest

/-! ## Telemetry tick (`backend/src/FFmpeg.py`, `InformationWriteOut`)

The body of one `writeOutInformation` iteration, with the wall clock, the
preview frame and the counters snapshotted into a state record.  Times are
exact rationals.  The two float divisions are embedded as checked
divisions so that Python's `ZeroDivisionError` branches are visible. -/

/-- Python `int()` truncation of a rational toward zero. -/
def pyTrunc (q : ℚ) : ℤ := if 0 ≤ q then ⌊q⌋ else ⌈q⌉

/-- Python 3 `round()` on a rational: nearest integer, ties to even. -/
def pyRound (q : ℚ) : ℤ :=
  let f := ⌊q⌋
  let r := q - f
  if r < 1/2 then f
  else if 1/2 < r then f + 1
  else if f % 2 = 0 then f else f + 1

/-- The `ZeroDivisionError` sites of the telemetry tick. -/
inductive DivErr where
  | framesRenderedZero
  | elapsedZero
deriving DecidableEq, Repr

/-- A division that raises `ZeroDivisionError` (tagged with its site) when
the denominator is zero, as Python float division does. -/
def qdivChecked (a b : ℚ) (e : DivErr) : Except DivErr ℚ :=
  if b = 0 then .error e else .ok (a / b)

/-- `FFmpeg.convertTime`: split a second count into hours, minutes and
seconds with Python floor division. -/
def convertTime (r : ℤ) : ℤ × ℤ × ℤ :=
  let hours := Int.fdiv r 3600
  let r1 := r - 3600 * hours
  let minutes := Int.fdiv r1 60
  let r2 := r1 - minutes * 60
  (hours, minutes, r2)

/-- The zero padding `convertTime` applies to minutes and seconds below
ten. -/
def padTwo (n : ℤ) : String := if n < 10 then "0" ++ toString n else toString n

/-- The formatted string produced by `calculateETA` from the truncated
remaining seconds: hours unpadded, minutes and seconds zero-padded below
ten, colon separated. -/
def hmsString (r : ℤ) : String :=
  let t := convertTime r
  toString t.1 ++ ":" ++ padTwo t.2.1 ++ ":" ++ padTwo t.2.2

/-- `InformationWriteOut.calculateETA`: time per frame is elapsed time over
frames rendered (a `ZeroDivisionError` site), remaining time is remaining
frames times that, truncated to whole seconds and formatted. -/
def calculateETA (totalOutputFrames : ℤ) (elapsed : ℚ) (framesRendered : ℤ) :
    Except DivErr String := do
  let timePerIteration ← qdivChecked elapsed (framesRendered : ℚ) .framesRenderedZero
  let remainingIterations : ℤ := totalOutputFrames - framesRendered
  let remainingTime : ℚ := (remainingIterations : ℚ) * timePerIteration
  .ok (hmsString (pyTrunc remainingTime))

/-- The telemetry fields one `writeOutInformation` iteration reads:
the preview frame last stored by `setPreviewFrame`, the counter last stored
by `setFramesRendered`, the startup-computed total output frame count and
the elapsed wall time `time.time() - self.startTime`. -/
structure TickState where
  previewFrame : Option (List Nat)
  framesRendered : ℤ
  totalOutputFrames : ℤ
  elapsed : ℚ

/-- One iteration of the `writeOutInformation` loop, reduced to the status
message it reports: under the guard `previewFrame is not None and
framesRendered > 0` it computes the fps (a `ZeroDivisionError` site when no
time has elapsed), the ETA, and the status line; otherwise it reports
nothing this tick. -/
def writeOutTick (st : TickState) : Except DivErr (Option String) :=
  if st.previewFrame.isSome ∧ 0 < st.framesRendered then do
    let fpsRaw ← qdivChecked (st.framesRendered : ℚ) st.elapsed .elapsedZero
    let fps := pyRound fpsRaw
    let eta ← calculateETA st.totalOutputFrames st.elapsed st.framesRendered
    .ok (some ("FPS: " ++ toString fps ++ " Current Frame: "
      ++ toString st.framesRendered ++ " ETA: " ++ eta))
  else
    .ok none

/-- A demonstration render configuration over `Nat` frames: interpolation
and upscaling configured, factor 2, upscaling adds 100, in-between frames
encode both endpoints and the timestep, buffers are singleton byte
lists. -/
def cfgDemo : RenderConfig Nat :=
  { interpolateModel := true
    upscaleModel := true
    overrideUpscaleScale := false
    ceilInterpolateFactor := 2
    restorations := []
    upscaleFn := fun n => n + 100
    interpFn := fun a b n => a * 1000 + b * 10 + n
    getBytes := fun n => [n]
    resizeBytes := fun b => b }

/-- A demonstration render configuration over `Nat` frames with
interpolation factor 3 and no upscaling. -/
def cfgDemoPlain : RenderConfig Nat :=
  { interpolateModel := true
    upscaleModel := false
    overrideUpscaleScale := false
    ceilInterpolateFactor := 3
    restorations := []
    upscaleFn := fun n => n
    interpFn := fun a b n => a * 1000 + b * 10 + n
    getBytes := fun n => [n]
    resizeBytes := fun b => b }

/-! ## Helper lemmas -/

/-- Serializing the 16-bit words decoded from an even-length byte list
reproduces the byte list. -/
theorem words16_flat_roundtrip :
    ∀ l : List Nat, (∀ x ∈ l, x < 256) → l.length % 2 = 0 →
      (bytesToWords16 l).flatMap (fun w => [w % 256, w / 256 % 256]) = l
  | [], _, _ => rfl
  | [x], _, hlen => by simp at hlen
  | lo :: hi :: rest, hb, hlen => by
    have hlo : lo < 256 := hb lo (by simp)
    have hhi : hi < 256 := hb hi (by simp)
    have hrest : ∀ x ∈ rest, x < 256 := fun x hx => hb x (by simp [hx])
    have hlen2 : rest.length % 2 = 0 := by
      simp only [List.length_cons] at hlen
      omega
    have h1 : (lo + 256 * hi) % 256 = lo := by omega
    have h2 : (lo + 256 * hi) / 256 % 256 = hi := by omega
    have ih := words16_flat_roundtrip rest hrest hlen2
    simp [bytesToWords16, h1, h2, ih]

/-- The abort flag of the per-frame body never fires: the source guards on
the truthiness of a generator object, which is always truthy. -/
theorem renderFrame_never_aborted {α γ : Type} (cfg : RenderConfig α)
    (detect : γ → α → Option Bool × γ) (g : γ) (ist : Option α) (f : α) :
    (renderFrame cfg detect g ist f).2.2.2 = false := by
  unfold renderFrame
  by_cases hi : cfg.interpolateModel <;> simp [hi, pyGeneratorTruthy]

/-- The pause schedule does not change the pushed trace: the paused
iterations only sleep, and processing resumes exactly where it stopped. -/
theorem renderLoop_eq_noPause {α γ : Type} (cfg : RenderConfig α)
    (detect : γ → α → Option Bool × γ) :
    ∀ (pauses : List Bool) (g : γ) (ist : Option α) (input : List α),
      renderLoop cfg detect pauses g ist input
        = renderLoopNoPause cfg detect g ist input
  | [], _, _, _ => rfl
  | true :: ps, g, ist, input => by
    simpa [renderLoop] using renderLoop_eq_noPause cfg detect ps g ist input
  | false :: ps, g, ist, [] => by simp [renderLoop, renderLoopNoPause]
  | false :: ps, g, ist, f :: rest => by
    simp only [renderLoop, renderLoopNoPause, if_neg, Bool.false_eq_true,
      if_false]
    rw [renderLoop_eq_noPause cfg detect ps]

/-- Every no-pause run ends in exactly one sentinel after all real
frames. -/
theorem renderLoopNoPause_shape {α γ : Type} (cfg : RenderConfig α)
    (detect : γ → α → Option Bool × γ) :
    ∀ (input : List α) (g : γ) (ist : Option α),
      ∃ l : List (List Nat),
        renderLoopNoPause cfg detect g ist input = l.map some ++ [none] := by
  intro input
  induction input with
  | nil => exact fun g ist => ⟨[], rfl⟩
  | cons f rest ih =>
    intro g ist
    obtain ⟨l, hl⟩ :=
      ih (renderFrame cfg detect g ist f).2.1 (renderFrame cfg detect g ist f).2.2.1
    refine ⟨(renderFrame cfg detect g ist f).1 ++ l, ?_⟩
    simp [renderLoopNoPause, renderFrame_never_aborted, hl]

/-! ## Claim theorems -/

/-- C3 (counterexample): a 5-byte buffer does not match the 12-byte
geometry of a 2×2 sdr frame, yet `set_frame_bytes` accepts and stores it
instead of failing. -/
theorem C3_counterexample :
    set_frame_bytes (⟨2, 2, false, none, none, none⟩ : PFrame Unit)
        (PyVal.pyBytes [1, 2, 3, 4, 5])
      = .ok ⟨2, 2, false, some [1, 2, 3, 4, 5], none, none⟩
    ∧ ([1, 2, 3, 4, 5] : List Nat).length ≠ 2 * 2 * bytesPerPixel false :=
  ⟨rfl, by decide⟩

/-- C3 (amended): `set_frame_bytes` validates only the dynamic type of its
argument.  Every `bytes` value — whatever its length, matching the frame
geometry or not — is accepted and stored; a non-`bytes` argument raises
`TypeError`.  Length mismatches are not detected at set time. -/
theorem C3_set_bytes_type_check_only {τ : Type} (s : PFrame τ) :
    (∀ b : List Nat,
      set_frame_bytes s (PyVal.pyBytes b)
        = .ok { invalidateCache s Keep.bytes with bytesRep := some b })
    ∧ ∀ d : String,
      set_frame_bytes s (PyVal.pyOther d) = .error ("Expected bytes, got " ++ d) :=
  ⟨fun _ => rfl, fun _ => rfl⟩

/-- C4: for a byte buffer of the exact geometry size (either depth),
`set_bytes; get_bytes` returns the buffer, and
`set_bytes; get_host_array; get_bytes` also returns the buffer; moreover
the materialized host array serializes back to the buffer, so the
bytes-to-array conversion is lossless. -/
theorem C4_roundtrip {τ : Type} (ttf : τ → List Nat) (ttn : τ → NpArray)
    (s : PFrame τ) (b : List Nat)
    (hlen : b.length = s.height * s.width * bytesPerPixel s.hdrMode)
    (hbound : ∀ x ∈ b, x < 256) :
    ∃ s1, set_frame_bytes s (PyVal.pyBytes b) = .ok s1
      ∧ (get_frame_bytes ttf s1).1 = some b
      ∧ ∃ a s2, get_frame_np ttn s1 = .ok (some a, s2)
        ∧ (get_frame_bytes ttf s2).1 = some b
        ∧ npToBytes a = b := by
  refine ⟨{ invalidateCache s Keep.bytes with bytesRep := some b }, rfl, rfl, ?_⟩
  by_cases hdr : s.hdrMode
  · have hof : b.length = s.height * s.width * 6 := by
      simpa [bytesPerPixel, hdr] using hlen
    have hmod : b.length % 2 = 0 := by omega
    have hdiv : b.length / 2 = s.height * s.width * 3 := by omega
    have hnp : bytesToNp s.hdrMode s.height s.width b
        = .ok ⟨true, bytesToWords16 b⟩ := by
      simp [bytesToNp, hdr, hmod, hdiv]
    refine ⟨⟨true, bytesToWords16 b⟩,
      { invalidateCache s Keep.bytes with bytesRep := some b, npRep := some ⟨true, bytesToWords16 b⟩ }, ?_, rfl, ?_⟩
    · simp only [get_frame_np, invalidateCache, hnp]
      rfl
    · simpa [npToBytes] using words16_flat_roundtrip b hbound hmod
  · have hof : b.length = s.height * s.width * 3 := by
      simpa [bytesPerPixel, hdr] using hlen
    have hnp : bytesToNp s.hdrMode s.height s.width b = .ok ⟨false, b⟩ := by
      simp [bytesToNp, hdr, hof]
    refine ⟨⟨false, b⟩,
      { invalidateCache s Keep.bytes with bytesRep := some b, npRep := some ⟨false, b⟩ }, ?_, rfl, ?_⟩
    · simp only [get_frame_np, invalidateCache, hnp]
      rfl
    · simp [npToBytes]

/-- C4 (witness): the round trip at a concrete 2×1 sdr frame and its
6-byte buffer. -/
theorem C4_roundtrip_witness :
    ∃ s1, set_frame_bytes (⟨2, 1, false, none, none, none⟩ : PFrame Unit)
        (PyVal.pyBytes [0, 1, 2, 3, 4, 5]) = .ok s1
      ∧ (get_frame_bytes (fun _ => []) s1).1 = some [0, 1, 2, 3, 4, 5]
      ∧ ∃ a s2, get_frame_np (fun _ => ⟨false, []⟩) s1 = .ok (some a, s2)
        ∧ (get_frame_bytes (fun _ => []) s2).1 = some [0, 1, 2, 3, 4, 5]
        ∧ npToBytes a = [0, 1, 2, 3, 4, 5] :=
  C4_roundtrip (fun _ => []) (fun _ => ⟨false, []⟩)
    (⟨2, 1, false, none, none, none⟩ : PFrame Unit) [0, 1, 2, 3, 4, 5]
    (by decide) (by decide)

/-- C5: each setter invalidates the other two cached representations, so
immediately after any set exactly one representation is populated; in
particular after `set_frame_np A` a previously cached byte buffer is gone
and `get_frame_bytes` re-derives the bytes from `A`. -/
theorem C5_cache_invalidation {τ : Type} (ttf : τ → List Nat) :
    (∀ (s : PFrame τ) (b : List Nat) (s1 : PFrame τ),
        set_frame_bytes s (PyVal.pyBytes b) = .ok s1 → ExactlyOnePopulated s1)
    ∧ (∀ (s : PFrame τ) (t : τ), ExactlyOnePopulated (set_frame_tensor s t))
    ∧ (∀ (s : PFrame τ) (a : NpArray),
        ExactlyOnePopulated (set_frame_np s a)
        ∧ (get_frame_bytes ttf (set_frame_np s a)).1 = some (npToBytes a)) := by
  refine ⟨?_, ?_, ?_⟩
  · intro s b s1 h
    simp only [set_frame_bytes, Except.ok.injEq] at h
    subst h
    exact Or.inl (by simp [invalidateCache, Keep])
  · intro s t
    exact Or.inr (Or.inr (by simp [set_frame_tensor, invalidateCache, Keep]))
  · intro s a
    refine ⟨Or.inr (Or.inl (by simp [set_frame_np, invalidateCache, Keep])), ?_⟩
    simp [set_frame_np, invalidateCache, get_frame_bytes, Keep]

/-- C5 (witness): the invalidation behavior at a concrete frame that has a
stale cached byte buffer. -/
theorem C5_cache_invalidation_witness :
    ExactlyOnePopulated
      ((set_frame_bytes (⟨1, 1, false, some [9, 9, 9], some ⟨false, [7, 7, 7]⟩, some ()⟩ : PFrame Unit)
          (PyVal.pyBytes [1, 2, 3])).toOption.getD ⟨0, 0, false, none, none, none⟩)
    ∧ ExactlyOnePopulated
        (set_frame_np (⟨1, 1, false, some [9, 9, 9], none, none⟩ : PFrame Unit) ⟨false, [7, 7, 7]⟩)
    ∧ (get_frame_bytes (fun _ => [])
        (set_frame_np (⟨1, 1, false, some [9, 9, 9], none, none⟩ : PFrame Unit) ⟨false, [7, 7, 7]⟩)).1
      = some (npToBytes ⟨false, [7, 7, 7]⟩) := by
  refine ⟨?_, ?_, ?_⟩
  · exact (C5_cache_invalidation (fun _ => [])).1
      (⟨1, 1, false, some [9, 9, 9], some ⟨false, [7, 7, 7]⟩, some ()⟩ : PFrame Unit)
      [1, 2, 3] _ rfl
  · exact ((C5_cache_invalidation (fun _ => [])).2.2
      (⟨1, 1, false, some [9, 9, 9], none, none⟩ : PFrame Unit) ⟨false, [7, 7, 7]⟩).1
  · exact ((C5_cache_invalidation (fun _ => [])).2.2
      (⟨1, 1, false, some [9, 9, 9], none, none⟩ : PFrame Unit) ⟨false, [7, 7, 7]⟩).2

/-- C6 (counterexample): on a fresh `NPMeanSCDetect` gate the first
`detect` call executes the bare `return` of the warm-up path and so
returns Python `None` — not the boolean `False` the claim states. -/
theorem C6_counterexample :
    (gateStep (fun i => i.data) (Gate.mean 20 none) ⟨1, 1, [1, 2, 3]⟩).1 = none
    ∧ (none : Option Bool) ≠ some false :=
  ⟨rfl, by simp⟩

/-- C6 (amended): the first `detect` call on a fresh gate returns a falsy
value — Python `None` for the mean-based strategies, the boolean `False`
for the null strategy — and retains the frame's fingerprint; every call on
a warmed gate returns a genuine boolean and keeps the gate warmed.  The
step function is total, so `detect` never throws on these strategies. -/
theorem C6_gate_first_call (gray : NpImg → List ℚ) (g : Gate) (img : NpImg) :
    (g.Fresh →
      pyTruthy (gateStep gray g img).1 = false ∧ (gateStep gray g img).2.Warmed)
    ∧ (g.Warmed →
      ((gateStep gray g img).1).isSome = true ∧ (gateStep gray g img).2.Warmed) := by
  cases g with
  | base => exact ⟨fun _ => ⟨rfl, trivial⟩, fun _ => ⟨rfl, trivial⟩⟩
  | mean sens m0 =>
    cases m0 <;> simp [gateStep, Gate.Fresh, Gate.Warmed, pyTruthy]
  | meanSegmented sens segs maxDet m0 =>
    cases m0 <;> simp [gateStep, Gate.Fresh, Gate.Warmed, pyTruthy]
  | meanDiff sens g0 =>
    cases g0 <;> simp [gateStep, Gate.Fresh, Gate.Warmed, pyTruthy]

/-- C6 (witness): the amended statement evaluated on a fresh mean gate and
on the warmed (stateless) null gate. -/
theorem C6_gate_first_call_witness :
    (pyTruthy (gateStep (fun i => i.data) (Gate.mean 20 none) ⟨1, 1, [2, 2, 2]⟩).1 = false
      ∧ (gateStep (fun i => i.data) (Gate.mean 20 none) ⟨1, 1, [2, 2, 2]⟩).2.Warmed)
    ∧ ((gateStep (fun i => i.data) Gate.base ⟨1, 1, [2, 2, 2]⟩).1.isSome = true
      ∧ (gateStep (fun i => i.data) Gate.base ⟨1, 1, [2, 2, 2]⟩).2.Warmed) :=
  ⟨(C6_gate_first_call (fun i => i.data) (Gate.mean 20 none) ⟨1, 1, [2, 2, 2]⟩).1 rfl,
    (C6_gate_first_call (fun i => i.data) Gate.base ⟨1, 1, [2, 2, 2]⟩).2 trivial⟩

/-- The per-frame body on a warmed transform with the no-cut gate: the
in-between buffers in timestep order, then the frame's own buffer; the
transform retains the restored frame; no abort. -/
theorem renderFrame_noCut {α : Type} (cfg : RenderConfig α)
    (hi : cfg.interpolateModel = true) (f0 f : α) :
    renderFrame cfg noCutDetect () (some f0) f
      = ((List.range (cfg.ceilInterpolateFactor - 1)).map
            (fun n => outputBytes cfg (cfg.interpFn f0 (applyRestorations cfg f) n))
          ++ [outputBytes cfg (applyRestorations cfg f)],
          (), some (applyRestorations cfg f), false) := by
  simp [renderFrame, hi, noCutDetect, interpolateCall, pyTruthy,
    pyGeneratorTruthy, List.map_map, Function.comp]

/-- C1: a warmed-up run over any source frames, with interpolation
configured and the gate reporting no cuts, pushes — whatever the pause
schedule — exactly the specified trace: for each source frame its
`ceil(F) - 1` in-between buffers in timestep order followed by its own
(possibly upscaled) buffer, then one sentinel; the buffer count is
`N * ceil(F)`. -/
theorem C1_render_ordering {α : Type} (cfg : RenderConfig α) (pauses : List Bool)
    (f0 : α) (frames : List α) (hi : cfg.interpolateModel = true)
    (hc : 1 ≤ cfg.ceilInterpolateFactor) :
    renderLoop cfg noCutDetect pauses () (some f0) frames
      = (expectedRun cfg f0 frames).map some ++ [none]
    ∧ (expectedRun cfg f0 frames).length
        = frames.length * cfg.ceilInterpolateFactor := by
  constructor
  · rw [renderLoop_eq_noPause]
    induction frames generalizing f0 with
    | nil => rfl
    | cons f rest ih =>
      simp only [renderLoopNoPause, renderFrame_noCut cfg hi f0 f]
      simp only [Bool.false_eq_true, if_false, expectedRun]
      rw [ih (applyRestorations cfg f)]
      simp [List.map_append, List.append_assoc]
  · induction frames generalizing f0 with
    | nil => simp [expectedRun]
    | cons f rest ih =>
      simp only [expectedRun, List.length_append, List.length_map,
        List.length_range, List.length_cons, List.length_nil]
      rw [ih (applyRestorations cfg f), Nat.add_mul, Nat.one_mul]
      omega

/-- C1 (witness): the ordering theorem evaluated on a warmed factor-3 run
over two source frames with a pause in the schedule. -/
theorem C1_render_ordering_witness :
    renderLoop cfgDemoPlain noCutDetect [true, false] () (some 7) [1, 2]
      = (expectedRun cfgDemoPlain 7 [1, 2]).map some ++ [none]
    ∧ (expectedRun cfgDemoPlain 7 [1, 2]).length
        = [1, 2].length * cfgDemoPlain.ceilInterpolateFactor :=
  C1_render_ordering cfgDemoPlain [true, false] 7 [1, 2] rfl (by decide)

/-- C2 (counterexample): with interpolation configured and a fresh
transform, the transform yields no frames for the very first source frame
(warm-up), yet the run pushes that frame's own upscaled buffer (`5`
upscaled to `105`) — the per-frame processing does not return early and
does push downstream for `f`. -/
theorem C2_counterexample :
    (interpolateCall cfgDemo none 5 false).1 = []
    ∧ renderLoop cfgDemo noCutDetect [] () none [5] = [some [105], none] :=
  ⟨rfl, rfl⟩

/-- C2 (amended): when the transform yields no frames for `f` (warm-up),
the interpolated-frame loop body is skipped, but the processing falls
through: `f`'s own (possibly upscaled) buffer is still pushed and the loop
continues with the remaining frames in the warmed state.  The source's
`if not interpolated_frames: return` guard cannot fire because the
transform call returns a generator object, which is always truthy. -/
theorem C2_warmup_falls_through {α γ : Type} (cfg : RenderConfig α)
    (detect : γ → α → Option Bool × γ) (g : γ) (f : α) (rest : List α)
    (hi : cfg.interpolateModel = true) :
    (interpolateCall cfg none (applyRestorations cfg f)
        (pyTruthy (detect g (applyRestorations cfg f)).1)).1 = []
    ∧ renderLoopNoPause cfg detect g none (f :: rest)
      = some (outputBytes cfg (applyRestorations cfg f))
        :: renderLoopNoPause cfg detect (detect g (applyRestorations cfg f)).2
          (some (applyRestorations cfg f)) rest := by
  refine ⟨rfl, ?_⟩
  rcases hdg : detect g (applyRestorations cfg f) with ⟨sd, g1⟩
  simp [renderLoopNoPause, renderFrame, hi, hdg, interpolateCall, pyGeneratorTruthy]

/-- C2 (witness): the amended statement evaluated on a fresh factor-3 run
with one frame after the warm-up frame. -/
theorem C2_warmup_falls_through_witness :
    (interpolateCall cfgDemoPlain none (applyRestorations cfgDemoPlain 4)
        (pyTruthy (noCutDetect () (applyRestorations cfgDemoPlain 4)).1)).1 = []
    ∧ renderLoopNoPause cfgDemoPlain noCutDetect () none (4 :: [9])
      = some (outputBytes cfgDemoPlain (applyRestorations cfgDemoPlain 4))
        :: renderLoopNoPause cfgDemoPlain noCutDetect
            (noCutDetect () (applyRestorations cfgDemoPlain 4)).2
            (some (applyRestorations cfgDemoPlain 4)) [9] :=
  C2_warmup_falls_through cfgDemoPlain noCutDetect () 4 [9] rfl

/-- Every reader-loop trace is some real frames followed by exactly one
sentinel. -/
theorem readFramesIntoQueue_shape (chunkSize : Nat)
    (postProc : List Nat → List Nat) :
    ∀ (n : Nat) (stream : List Nat), stream.length ≤ n →
      ∃ l : List (List Nat),
        readFramesIntoQueue chunkSize postProc stream = l.map some ++ [none] := by
  intro n
  induction n with
  | zero =>
    intro stream hlen
    have h0 : stream.length = 0 := Nat.le_zero.mp hlen
    have hc : stream.length < chunkSize ∨ chunkSize = 0 := by omega
    rw [readFramesIntoQueue, dif_pos hc]
    exact ⟨[], rfl⟩
  | succ n ih =>
    intro stream hlen
    rw [readFramesIntoQueue]
    by_cases hc : stream.length < chunkSize ∨ chunkSize = 0
    · rw [dif_pos hc]
      exact ⟨[], rfl⟩
    · rw [dif_neg hc]
      push_neg at hc
      obtain ⟨l, hl⟩ := ih (stream.drop chunkSize) (by
        simp only [List.length_drop]
        omega)
      exact ⟨postProc (stream.take chunkSize) :: l, by simp [hl]⟩

/-- C7: the decode-queue trace is the decoded frames followed by exactly
one sentinel, and the encode-queue trace of any run — any configuration,
gate, pause schedule, transform state and input — is the pushed buffers
followed by exactly one sentinel; no item follows a sentinel on either
queue. -/
theorem C7_sentinel_exactly_once {α γ : Type} (cfg : RenderConfig α)
    (detect : γ → α → Option Bool × γ) (chunkSize : Nat)
    (postProc : List Nat → List Nat) (stream : List Nat) (pauses : List Bool)
    (g : γ) (ist : Option α) (input : List α) :
    (∃ l : List (List Nat),
      readFramesIntoQueue chunkSize postProc stream = l.map some ++ [none])
    ∧ (∃ l : List (List Nat),
      renderLoop cfg detect pauses g ist input = l.map some ++ [none]) := by
  refine ⟨readFramesIntoQueue_shape chunkSize postProc stream.length stream le_rfl, ?_⟩
  rw [renderLoop_eq_noPause]
  exact renderLoopNoPause_shape cfg detect input g ist

/-- C8: an iteration that reads the pause flag as set performs no queue
pull and no push — its trace is exactly the trace of the run without that
reading — and the whole pushed trace is independent of the pause schedule,
so resuming loses and duplicates nothing. -/
theorem C8_pause_semantics {α γ : Type} (cfg : RenderConfig α)
    (detect : γ → α → Option Bool × γ) :
    (∀ (ps : List Bool) (g : γ) (ist : Option α) (input : List α),
      renderLoop cfg detect (true :: ps) g ist input
        = renderLoop cfg detect ps g ist input)
    ∧ (∀ (pauses : List Bool) (g : γ) (ist : Option α) (input : List α),
      renderLoop cfg detect pauses g ist input
        = renderLoopNoPause cfg detect g ist input) :=
  ⟨fun ps g ist input => by simp [renderLoop],
    fun pauses g ist input => renderLoop_eq_noPause cfg detect pauses g ist input⟩

/-- C9: on a tick where a preview frame is available (and frames have been
rendered and time has elapsed, so neither division raises), the reported
throughput is frames rendered over elapsed seconds, rounded, and the
reported ETA is remaining frames times elapsed-time-per-frame, truncated
to whole seconds and formatted as hours:minutes:seconds. -/
theorem C9_eta_fps_formulas (st : TickState) (hp : st.previewFrame.isSome = true)
    (hf : 0 < st.framesRendered) (he : st.elapsed ≠ 0) :
    writeOutTick st
      = .ok (some ("FPS: " ++ toString (pyRound ((st.framesRendered : ℚ) / st.elapsed))
        ++ " Current Frame: " ++ toString st.framesRendered
        ++ " ETA: " ++ hmsString (pyTrunc
            (((st.totalOutputFrames - st.framesRendered : ℤ) : ℚ)
              * (st.elapsed / (st.framesRendered : ℚ)))))) := by
  have hfr : ((st.framesRendered : ℤ) : ℚ) ≠ 0 := by
    exact_mod_cast (show st.framesRendered ≠ 0 by omega)
  unfold writeOutTick
  rw [if_pos ⟨hp, hf⟩]
  unfold calculateETA qdivChecked
  rw [if_neg he, if_neg hfr]
  rfl

/-- C9 (witness): the tick formulas at a concrete state, 2 frames rendered
in 4 elapsed seconds toward 10 total output frames. -/
theorem C9_eta_fps_formulas_witness :
    writeOutTick ⟨some [0], 2, 10, 4⟩
      = .ok (some ("FPS: " ++ toString (pyRound (((2 : ℤ) : ℚ) / (4 : ℚ)))
        ++ " Current Frame: " ++ toString (2 : ℤ)
        ++ " ETA: " ++ hmsString (pyTrunc
            ((((10 : ℤ) - (2 : ℤ) : ℤ) : ℚ) * ((4 : ℚ) / ((2 : ℤ) : ℚ)))))) :=
  C9_eta_fps_formulas ⟨some [0], 2, 10, 4⟩ rfl (by decide) (by norm_num)

/-- C10: the telemetry tick divides by `framesRendered` only under the
guard `framesRendered > 0`, so the frames-rendered division can never
raise; when the guard fails nothing is computed at all.  (The elapsed-time
denominator is a separate site and is not covered by the guard.) -/
theorem C10_framesRendered_guard (st : TickState) :
    writeOutTick st ≠ .error DivErr.framesRenderedZero
    ∧ (¬ (st.previewFrame.isSome ∧ 0 < st.framesRendered) →
        writeOutTick st = .ok none) := by
  constructor
  · unfold writeOutTick
    by_cases hg : st.previewFrame.isSome ∧ 0 < st.framesRendered
    · rw [if_pos hg]
      unfold calculateETA qdivChecked
      have hfr : ((st.framesRendered : ℤ) : ℚ) ≠ 0 := by
        exact_mod_cast (show st.framesRendered ≠ 0 by omega)
      rw [if_neg hfr]
      by_cases he : st.elapsed = 0
      · rw [if_pos he]
        exact fun h => Except.noConfusion h fun h2 => DivErr.noConfusion h2
      · rw [if_neg he]
        exact fun h => Except.noConfusion h
    · rw [if_neg hg]
      exact fun h => Except.noConfusion h
  · intro hg
    unfold writeOutTick
    rw [if_neg hg]

/-- C10 (witness): the guard behavior at a concrete idle state (no preview,
zero frames rendered, zero elapsed time): no division error, no report. -/
theorem C10_framesRendered_guard_witness :
    writeOutTick ⟨none, 0, 10, 0⟩ ≠ .error DivErr.framesRenderedZero
    ∧ writeOutTick ⟨none, 0, 10, 0⟩ = .ok none :=
  ⟨(C10_framesRendered_guard ⟨none, 0, 10, 0⟩).1,
    (C10_framesRendered_guard ⟨none, 0, 10, 0⟩).2 (by simp)⟩

end RVE
